import Mathlib

/-!
Shallow embedding of the steel-manager form application (src/main.py):
the Entry data model, JSON persistence (DataHandler.load_data / save_data),
and the FormulaireApp operations add_entry, delete_selected_entry,
clear_table and calculate_weight_summary. GUI widgets, the confirmation
dialog and the password prompt are external collaborators per the spec's
scope; the operations are modelled as pure state transformers on the
in-memory entry list, the id counter and the persisted file.
-/

namespace SteelManager

/-- One weighed-material record, mirroring the Python `Entry` class
(fields `id`, `date`, `matiere`, `poids`). The app only ever constructs
entries with these value kinds; Python integers are unbounded, hence `Int`. -/
structure Entry where
  id : Int
  date : String
  matiere : String
  poids : Int
deriving DecidableEq

/-- JSON values as produced by `json.load` on the persisted file.
`num` covers the integer numbers of the persisted record format;
`obj` models an already-parsed Python dict (keys unique). -/
inductive Json where
  | null : Json
  | bool (b : Bool) : Json
  | num (n : Int) : Json
  | str (s : String) : Json
  | arr (l : List Json) : Json
  | obj (kvs : List (String × Json)) : Json

/-- The Python `Entry` constructor stores its four arguments without any
runtime type check, so an entry loaded from disk holds arbitrary JSON
values in its four attributes. -/
structure PyEntry where
  id : Json
  date : Json
  matiere : Json
  poids : Json

/-- The well-typed entries the application itself creates, viewed as the
untyped runtime records `Entry(...)` builds when loading. -/
def Entry.toRaw (e : Entry) : PyEntry :=
  ⟨.num e.id, .str e.date, .str e.matiere, .num e.poids⟩

/-- The uncaught exceptions `load_data` can raise: a `json.JSONDecodeError`
from `json.load`, a `TypeError` from iterating or subscripting a non-dict,
or a `KeyError` for a missing record field. Each stops startup. -/
inductive LoadErr where
  | jsonDecodeErr : LoadErr
  | typeErr : LoadErr
  | keyErr (k : String) : LoadErr
deriving DecidableEq

/-- Python iteration over the value returned by `json.load` (the
`for e in data` of the list comprehension): a list yields its elements, a
dict yields its keys, a string yields its one-character substrings, and
the remaining values are not iterable (`TypeError`). -/
def pyIter : Json → Except LoadErr (List Json)
  | .arr l => .ok l
  | .obj kvs => .ok (kvs.map fun kv => .str kv.1)
  | .str t => .ok (t.data.map fun c => .str (String.mk [c]))
  | .null => .error .typeErr
  | .bool _ => .error .typeErr
  | .num _ => .error .typeErr

/-- Python subscripting `e[k]` with a string key: only a dict supports it
(`KeyError` when the key is absent); every other value raises `TypeError`. -/
def pyGetItem : Json → String → Except LoadErr Json
  | .obj kvs, k =>
      match kvs.lookup k with
      | some v => .ok v
      | none => .error (.keyErr k)
  | .null, _ => .error .typeErr
  | .bool _, _ => .error .typeErr
  | .num _, _ => .error .typeErr
  | .str _, _ => .error .typeErr
  | .arr _, _ => .error .typeErr

/-- `Entry(e["id"], e["date"], e["matiere"], e["poids"])` for one element of
the loaded data: the four subscripts evaluated left to right, the values
stored unchecked. -/
def readRecord (j : Json) : Except LoadErr PyEntry := do
  let i ← pyGetItem j "id"
  let d ← pyGetItem j "date"
  let m ← pyGetItem j "matiere"
  let p ← pyGetItem j "poids"
  .ok ⟨i, d, m, p⟩

/-- The list comprehension of `DataHandler.load_data`, element by element;
the first raised exception propagates. -/
def loadRecords : List Json → Except LoadErr (List PyEntry)
  | [] => .ok []
  | j :: rest => do
      let r ← readRecord j
      let rs ← loadRecords rest
      .ok (r :: rs)

/-- `DataHandler.load_data` applied to the parsed content of an existing
`data.json`: iterate the top-level value and build an `Entry` per element. -/
def load_data (j : Json) : Except LoadErr (List PyEntry) := do
  let items ← pyIter j
  loadRecords items

/-- The persisted `data.json`: absent, present but rejected by `json.load`,
or present with a parsed JSON value. -/
inductive PersistedFile where
  | absent : PersistedFile
  | corrupt : PersistedFile
  | saved (j : Json) : PersistedFile

/-- `DataHandler.load_data` including the `os.path.exists` guard: no file
gives the empty list, an unparseable file propagates `json.JSONDecodeError`. -/
def load_file : PersistedFile → Except LoadErr (List PyEntry)
  | .absent => .ok []
  | .corrupt => .error .jsonDecodeErr
  | .saved j => load_data j

/-- `DataHandler.save_data`: the JSON value written to `data.json`, a list
of `{"id": .., "date": .., "matiere": .., "poids": ..}` dicts in entry order. -/
def save_data (entries : List Entry) : Json :=
  .arr (entries.map fun e =>
    .obj [("id", .num e.id), ("date", .str e.date),
          ("matiere", .str e.matiere), ("poids", .num e.poids)])

/-- In-memory state of `FormulaireApp`: the entry list, the id counter and
the persisted file the save calls overwrite. -/
structure AppState where
  entries : List Entry
  id_counter : Int
  file : PersistedFile

/-- Model of Python's `int(s)` on a decimal string: surrounding whitespace
stripped, then an optional sign and a nonempty digit run, single
underscores allowed between digits; anything else raises `ValueError`
(`none`). Digit run after the first digit, `acc` the value so far. -/
def pyIntDigits (acc : Nat) : List Char → Option Nat
  | [] => some acc
  | '_' :: c :: rest =>
      if c.isDigit then pyIntDigits (acc * 10 + (c.toNat - 48)) rest else none
  | c :: rest =>
      if c.isDigit then pyIntDigits (acc * 10 + (c.toNat - 48)) rest else none

/-- The unsigned digit run of `int(s)`: must start with a digit. -/
def pyIntBody : List Char → Option Nat
  | [] => none
  | c :: rest => if c.isDigit then pyIntDigits (c.toNat - 48) rest else none

/-- The whitespace stripping `int(s)` performs before reading the number. -/
def pyStrip (cs : List Char) : List Char :=
  ((cs.dropWhile Char.isWhitespace).reverse.dropWhile Char.isWhitespace).reverse

/-- Python `int(s)` for the weight field: `some` value, or `none` for the
`ValueError` that `validate_entry` catches. -/
def pyInt (s : String) : Option Int :=
  match pyStrip s.data with
  | '+' :: rest => (pyIntBody rest).map Int.ofNat
  | '-' :: rest => (pyIntBody rest).map fun n => -(Int.ofNat n : Int)
  | cs => (pyIntBody cs).map Int.ofNat

/-- Outcome of `add_entry`: one of the two `messagebox.showerror` texts of
`validate_entry`, or the appended entry. -/
inductive AddResult where
  | rejected (msg : String) : AddResult
  | added (e : Entry) : AddResult
deriving DecidableEq

/-- `FormulaireApp.add_entry` on the submitted material and weight strings.
`validate_entry` runs first: the falsiness test `if not poids` on the raw
string, then the `int(poids)` parse; each failure aborts before any
mutation. On success the conversion `int(poids) - 45` reuses the same
parse, the entry is appended with the current id counter and `datetime.now`
date, the counter incremented, and the full list saved. -/
def add_entry (s : AppState) (today matiere poids : String) : AppState × AddResult :=
  if poids = "" then (s, .rejected "Veuillez remplir le champ Poids.")
  else
    match pyInt poids with
    | none => (s, .rejected "Le poids doit etre un nombre.")
    | some w =>
        let e : Entry := ⟨s.id_counter, today, matiere, w - 45⟩
        let es := s.entries ++ [e]
        (⟨es, s.id_counter + 1, .saved (save_data es)⟩, .added e)

/-- The two observable outcomes of `delete_selected_entry`: the
"Veuillez sélectionner une ligne" error for an empty selection, and the
"L'entrée a été supprimée" success message shown after the filter — the
code has no other outcome. -/
inductive DeleteResult where
  | noSelection : DeleteResult
  | success : DeleteResult
deriving DecidableEq

/-- `FormulaireApp.delete_selected_entry`. The selection, when present,
carries the first table column of the chosen row, i.e. the displayed
string form of an entry id; the list comprehension keeps every entry with
`str(entry.id) != entry_id`, the result is saved and the success message
shown unconditionally. -/
def delete_selected_entry (s : AppState) (selected : Option String) :
    AppState × DeleteResult :=
  match selected with
  | none => (s, .noSelection)
  | some entry_id =>
      let es := s.entries.filter fun e => toString e.id != entry_id
      (⟨es, s.id_counter, .saved (save_data es)⟩, .success)

/-- `FormulaireApp.clear_table`, the confirmed branch (the ok/cancel dialog
is an external collaborator): clear the list, reset the counter to 1, save. -/
def clear_table (_s : AppState) : AppState :=
  ⟨[], 1, .saved (save_data [])⟩

/-- One step of the `calculate_weight_summary` loop on the insertion-ordered
dict: `matiere_dict[m] += w` when the key exists, `matiere_dict[m] = w`
otherwise (a fresh key goes to the end). -/
def bump : List (String × Int) → String → Int → List (String × Int)
  | [], m, w => [(m, w)]
  | (k, v) :: rest, m, w =>
      if k = m then (k, v + w) :: rest else (k, v) :: bump rest m w

/-- `FormulaireApp.calculate_weight_summary`: a single pass over the entries
accumulating the per-material totals into an insertion-ordered dict. -/
def calculate_weight_summary (entries : List Entry) : List (String × Int) :=
  entries.foldl (fun d e => bump d e.matiere e.poids) []

/-- The spec's "max existing id" ("Assigns next id = (max existing id + 1,
or 1 if empty)"), stated from the spec's words for comparison with the
code's id counter; 0 for the empty store so that max + 1 = 1 there. -/
def specMaxId (entries : List Entry) : Int :=
  entries.foldl (fun a e => max a e.id) 0

/-- An element of the loaded JSON list passes `load_data` exactly when it is
a dict containing all four record keys — the values themselves are never
inspected. -/
def hasRecordKeys : Json → Bool
  | .obj kvs =>
      (kvs.lookup "id").isSome && (kvs.lookup "date").isSome &&
      (kvs.lookup "matiere").isSome && (kvs.lookup "poids").isSome
  | _ => false

/-! ### Helper lemmas -/

theorem pyInt_empty : pyInt "" = none := rfl

/-- On a weight string that parses, `add_entry` appends the new entry built
from the current counter, increments the counter and saves the new list. -/
theorem add_entry_valid (s : AppState) (d m p : String) (w : Int)
    (h : pyInt p = some w) :
    add_entry s d m p =
      (⟨s.entries ++ [⟨s.id_counter, d, m, w - 45⟩], s.id_counter + 1,
        .saved (save_data (s.entries ++ [⟨s.id_counter, d, m, w - 45⟩]))⟩,
       .added ⟨s.id_counter, d, m, w - 45⟩) := by
  have hp : p ≠ "" := by
    intro hp
    rw [hp, pyInt_empty] at h
    exact Option.noConfusion h
  unfold add_entry
  rw [if_neg hp, h]

theorem specMaxId_append (es : List Entry) (e : Entry) :
    specMaxId (es ++ [e]) = max (specMaxId es) e.id := by
  simp [specMaxId, List.foldl_append]

/-! ### Claims about `add_entry` -/

/-- Claim C1: for every valid input pair (material, raw weight string) whose
weight parses as an integer `w`, `add_entry` produces an entry whose stored
`poids` is `w - 45`; the offset is applied exactly once, at creation, and
the already-stored entries are carried over unchanged (the new list is the
old list with the single new entry appended). -/
theorem claim1_offset_applied_once_at_creation (s : AppState) (d m p : String)
    (w : Int) (h : pyInt p = some w) :
    (add_entry s d m p).2 = .added ⟨s.id_counter, d, m, w - 45⟩ ∧
    (add_entry s d m p).1.entries = s.entries ++ [⟨s.id_counter, d, m, w - 45⟩] := by
  rw [add_entry_valid s d m p w h]
  exact ⟨rfl, rfl⟩

/-- Witness for C1: on the empty store, adding material `"Acier"` with raw
weight `"100"` yields the entry with id 1 and stored weight `55 = 100 - 45`,
the concrete scenario of the spec. -/
theorem claim1_offset_applied_once_at_creation_witness :
    (add_entry ⟨[], 1, .absent⟩ "01/01/2026" "Acier" "100").2 =
      .added ⟨1, "01/01/2026", "Acier", 55⟩ :=
  (claim1_offset_applied_once_at_creation ⟨[], 1, .absent⟩ "01/01/2026" "Acier"
    "100" 100 (by decide)).1

/-- The state reached from the empty store by `add "100"`, `add "50"`,
`delete "2"`: it holds only the entry with id 1, yet its id counter is 3. -/
def cexAfterDelete : AppState :=
  (delete_selected_entry
    (add_entry (add_entry ⟨[], 1, .absent⟩ "01/01/2026" "Acier" "100").1
      "01/01/2026" "Acier" "50").1 (some "2")).1

/-- Counterexample to claim C2: after the operation sequence add, add,
delete(2), the store holds only the entry with id 1, so the claim says the
next add assigns id `max + 1 = 2`; the code assigns id 3, because
`id_counter` is not recomputed on delete. -/
theorem claim2_next_id_counterexample :
    cexAfterDelete.entries = [⟨1, "01/01/2026", "Acier", 55⟩] ∧
    specMaxId cexAfterDelete.entries + 1 = 2 ∧
    (add_entry cexAfterDelete "01/01/2026" "Acier" "70").2 =
      .added ⟨3, "01/01/2026", "Acier", 25⟩ := by
  refine ⟨by decide, by decide, by decide⟩

/-- Claim C2 as amended: `add_entry` assigns the new entry the current
`id_counter` and increments the counter; the property
`id_counter = max existing id + 1` holds for the empty store, is preserved
by every valid add and re-established by `clear_table`, but
`delete_selected_entry` leaves the counter unchanged without recomputing it,
so after deleting the highest entry the next assigned id can exceed
(max existing id + 1). -/
theorem claim2_next_id_amended :
    (∀ s : AppState, ∀ d m p : String, ∀ w : Int, pyInt p = some w →
        (add_entry s d m p).2 = .added ⟨s.id_counter, d, m, w - 45⟩ ∧
        (add_entry s d m p).1.id_counter = s.id_counter + 1) ∧
    (∀ s : AppState, ∀ d m p : String, ∀ w : Int, pyInt p = some w →
        s.id_counter = specMaxId s.entries + 1 →
        (add_entry s d m p).1.id_counter =
          specMaxId (add_entry s d m p).1.entries + 1) ∧
    (∀ s : AppState,
        (clear_table s).id_counter = specMaxId (clear_table s).entries + 1) ∧
    (∀ s : AppState, ∀ sel : Option String,
        (delete_selected_entry s sel).1.id_counter = s.id_counter) := by
  refine ⟨?_, ?_, ?_, ?_⟩
  · intro s d m p w h
    rw [add_entry_valid s d m p w h]
    exact ⟨rfl, rfl⟩
  · intro s d m p w h hinv
    rw [add_entry_valid s d m p w h]
    show s.id_counter + 1 = specMaxId (s.entries ++ [⟨s.id_counter, d, m, w - 45⟩]) + 1
    rw [specMaxId_append]
    show s.id_counter + 1 = max (specMaxId s.entries) s.id_counter + 1
    rw [hinv]
    omega
  · intro s
    rfl
  · intro s sel
    cases sel <;> rfl

/-- Witness for the amended C2: on the empty store (counter 1, max id 0),
adding raw weight `"100"` preserves `id_counter = max id + 1`. -/
theorem claim2_next_id_amended_witness :
    (add_entry ⟨[], 1, .absent⟩ "01/01/2026" "Acier" "100").1.id_counter =
      specMaxId (add_entry ⟨[], 1, .absent⟩ "01/01/2026" "Acier" "100").1.entries + 1 :=
  claim2_next_id_amended.2.1 ⟨[], 1, .absent⟩ "01/01/2026" "Acier" "100" 100
    (by decide) (by decide)

/-- Claim C5: `clear_table` empties the collection and resets the id
counter to 1, so for any prior store state a subsequent valid add yields an
entry with id 1. -/
theorem claim5_clear_then_add_gives_id_one (s : AppState) (d m p : String)
    (w : Int) (h : pyInt p = some w) :
    (clear_table s).entries = [] ∧ (clear_table s).id_counter = 1 ∧
    (add_entry (clear_table s) d m p).2 = .added ⟨1, d, m, w - 45⟩ := by
  refine ⟨rfl, rfl, ?_⟩
  rw [add_entry_valid (clear_table s) d m p w h]
  rfl

/-- Witness for C5: clearing a nonempty store with counter 10 and then
adding `"Acier" "100"` produces the entry with id 1. -/
theorem claim5_clear_then_add_gives_id_one_witness :
    (add_entry (clear_table ⟨[⟨9, "01/01/2026", "Acier", 5⟩], 10, .absent⟩)
      "02/01/2026" "Acier" "100").2 = .added ⟨1, "02/01/2026", "Acier", 55⟩ :=
  (claim5_clear_then_add_gives_id_one ⟨[⟨9, "01/01/2026", "Acier", 5⟩], 10, .absent⟩
    "02/01/2026" "Acier" "100" 100 (by decide)).2.2

/-- Claim C8: when the weight input is missing (empty) or does not parse as
an integer, `add_entry` rejects it and leaves the whole state — entries, id
counter and persisted file — unchanged; no entry is added. -/
theorem claim8_invalid_weight_aborts_without_mutation (s : AppState)
    (d m p : String) (h : p = "" ∨ pyInt p = none) :
    (add_entry s d m p).1 = s ∧ ∀ e : Entry, (add_entry s d m p).2 ≠ .added e := by
  rcases h with h | h
  · subst h
    exact ⟨rfl, fun e he => AddResult.noConfusion he⟩
  · by_cases hp : p = ""
    · subst hp
      exact ⟨rfl, fun e he => AddResult.noConfusion he⟩
    · unfold add_entry
      rw [if_neg hp, h]
      exact ⟨rfl, fun e he => AddResult.noConfusion he⟩

/-- Witness for C8: submitting the non-numeric weight `"abc"` leaves a
one-entry state exactly as it was. -/
theorem claim8_invalid_weight_aborts_without_mutation_witness :
    (add_entry ⟨[⟨1, "01/01/2026", "Acier", 55⟩], 2, .absent⟩
      "02/01/2026" "Cuivre" "abc").1 =
      ⟨[⟨1, "01/01/2026", "Acier", 55⟩], 2, .absent⟩ :=
  (claim8_invalid_weight_aborts_without_mutation
    ⟨[⟨1, "01/01/2026", "Acier", 55⟩], 2, .absent⟩ "02/01/2026" "Cuivre" "abc"
    (Or.inr (by decide))).1

/-! ### Claims about `delete_selected_entry` -/

/-- Counterexample to claim C4: deleting with the id string `"2"` on a store
that only holds id 1 leaves the collection unchanged, but the reported
outcome is the very same success message a found match produces — the code
signals no not-found condition, so the report is not distinct from success. -/
theorem claim4_not_found_report_counterexample :
    (delete_selected_entry ⟨[⟨1, "01/01/2026", "Acier", 55⟩], 2, .absent⟩
      (some "2")).2 = .success ∧
    (delete_selected_entry ⟨[⟨1, "01/01/2026", "Acier", 55⟩], 2, .absent⟩
      (some "1")).2 = .success ∧
    (delete_selected_entry ⟨[⟨1, "01/01/2026", "Acier", 55⟩], 2, .absent⟩
      (some "2")).1.entries = [⟨1, "01/01/2026", "Acier", 55⟩] := by
  refine ⟨rfl, rfl, by decide⟩

/-- Claim C4 as amended: for every id string matching no stored entry,
`delete_selected_entry` leaves the in-memory collection unchanged, but it
unconditionally reports the success outcome rather than a not-found one;
the only distinct failure report the operation has is for an empty
selection. -/
theorem claim4_delete_missing_id_amended (s : AppState) (sid : String)
    (h : ∀ e ∈ s.entries, toString e.id ≠ sid) :
    (delete_selected_entry s (some sid)).1.entries = s.entries ∧
    (delete_selected_entry s (some sid)).2 = .success ∧
    (delete_selected_entry s none).2 = .noSelection := by
  refine ⟨?_, rfl, rfl⟩
  show s.entries.filter (fun e => toString e.id != sid) = s.entries
  rw [List.filter_eq_self]
  intro e he
  simpa using h e he

/-- Witness for the amended C4: deleting id string `"2"` from the one-entry
store with id 1 keeps the collection intact. -/
theorem claim4_delete_missing_id_amended_witness :
    (delete_selected_entry ⟨[⟨1, "01/01/2026", "Acier", 55⟩], 2, .absent⟩
      (some "7")).1.entries = [⟨1, "01/01/2026", "Acier", 55⟩] :=
  (claim4_delete_missing_id_amended ⟨[⟨1, "01/01/2026", "Acier", 55⟩], 2, .absent⟩
    "7" (by decide)).1

/-- Claim C10: `delete_selected_entry` removes every entry whose id's string
form matches the given id string — duplicates included — keeps every entry
with a non-matching id, and keeps the surviving entries in their original
relative order (the result is a sublist of the original list). -/
theorem claim10_delete_frame_effect (s : AppState) (sid : String) :
    (∀ e ∈ (delete_selected_entry s (some sid)).1.entries, toString e.id ≠ sid) ∧
    (∀ e ∈ s.entries, toString e.id ≠ sid →
        e ∈ (delete_selected_entry s (some sid)).1.entries) ∧
    (delete_selected_entry s (some sid)).1.entries.Sublist s.entries := by
  refine ⟨?_, ?_, ?_⟩
  · intro e he
    have : e ∈ s.entries.filter (fun e => toString e.id != sid) := he
    simpa using (List.mem_filter.mp this).2
  · intro e he hne
    show e ∈ s.entries.filter (fun e => toString e.id != sid)
    exact List.mem_filter.mpr ⟨he, by simpa using hne⟩
  · exact List.filter_sublist s.entries

/-- Witness for C10: from a store with duplicate id 1 around an id 2 entry,
deleting `"1"` removes both copies and keeps the id 2 entry. -/
theorem claim10_delete_frame_effect_witness :
    ⟨2, "01/01/2026", "Cuivre", 7⟩ ∈
      (delete_selected_entry
        ⟨[⟨1, "01/01/2026", "Acier", 55⟩, ⟨2, "01/01/2026", "Cuivre", 7⟩,
          ⟨1, "02/01/2026", "Acier", 5⟩], 3, .absent⟩ (some "1")).1.entries :=
  (claim10_delete_frame_effect
    ⟨[⟨1, "01/01/2026", "Acier", 55⟩, ⟨2, "01/01/2026", "Cuivre", 7⟩,
      ⟨1, "02/01/2026", "Acier", 5⟩], 3, .absent⟩ "1").2.1
    ⟨2, "01/01/2026", "Cuivre", 7⟩ (by decide) (by decide)

/-! ### Claims about persistence -/

theorem readRecord_save (e : Entry) :
    readRecord (.obj [("id", .num e.id), ("date", .str e.date),
      ("matiere", .str e.matiere), ("poids", .num e.poids)]) = .ok e.toRaw := rfl

theorem loadRecords_save (es : List Entry) :
    loadRecords (es.map fun e =>
      Json.obj [("id", .num e.id), ("date", .str e.date),
        ("matiere", .str e.matiere), ("poids", .num e.poids)]) =
      .ok (es.map Entry.toRaw) := by
  induction es with
  | nil => rfl
  | cons e es ih =>
    simp only [List.map_cons, loadRecords, readRecord_save, ih]
    rfl

/-- Claim C3: for every non-empty collection of well-typed entries, loading
what `save_data` wrote returns exactly the original collection — same
order, same four fields per record — and the untyped runtime records loaded
determine the typed entries uniquely (`toRaw` is injective). -/
theorem claim3_load_after_save_roundtrip (es : List Entry) (_hne : es ≠ []) :
    load_file (.saved (save_data es)) = .ok (es.map Entry.toRaw) ∧
    ∀ e1 e2 : Entry, e1.toRaw = e2.toRaw → e1 = e2 := by
  refine ⟨?_, ?_⟩
  · show load_data (save_data es) = .ok (es.map Entry.toRaw)
    unfold load_data save_data pyIter
    simpa using loadRecords_save es
  · intro e1 e2 h
    cases e1
    cases e2
    simp only [Entry.toRaw, PyEntry.mk.injEq, Json.num.injEq, Json.str.injEq] at h
    simp [h.1, h.2.1, h.2.2.1, h.2.2.2]

/-- Witness for C3: the spec's concrete entry round-trips through the
persisted JSON value unchanged. -/
theorem claim3_load_after_save_roundtrip_witness :
    load_file (.saved (save_data [⟨1, "01/01/2026", "Acier", 55⟩])) =
      .ok ([⟨1, "01/01/2026", "Acier", 55⟩].map Entry.toRaw) :=
  (claim3_load_after_save_roundtrip [⟨1, "01/01/2026", "Acier", 55⟩]
    (by decide)).1

theorem readRecord_isOk (j : Json) :
    (readRecord j).isOk = hasRecordKeys j := by
  cases j with
  | obj kvs =>
    simp only [readRecord, hasRecordKeys, pyGetItem]
    cases kvs.lookup "id" <;> cases kvs.lookup "date" <;>
      cases kvs.lookup "matiere" <;> cases kvs.lookup "poids" <;>
      simp [Except.isOk, Except.toBool, Bind.bind, Except.bind]
  | null => rfl
  | bool b => rfl
  | num n => rfl
  | str t => rfl
  | arr l => rfl

theorem loadRecords_isOk (l : List Json) :
    (loadRecords l).isOk = l.all hasRecordKeys := by
  induction l with
  | nil => rfl
  | cons j rest ih =>
    simp only [loadRecords, List.all_cons]
    cases hj : readRecord j with
    | error err =>
      have := readRecord_isOk j
      rw [hj] at this
      simp [Bind.bind, Except.bind, ← this, Except.isOk, Except.toBool]
    | ok r =>
      have := readRecord_isOk j
      rw [hj] at this
      cases hrest : loadRecords rest with
      | error err =>
        rw [hrest] at ih
        simp [Bind.bind, Except.bind, ← this, ← ih, Except.isOk, Except.toBool]
      | ok rs =>
        rw [hrest] at ih
        simp [Bind.bind, Except.bind, ← this, ← ih, Except.isOk, Except.toBool]

/-- Counterexample to claim C9: persisted state that exists but is not in
the expected record shape does not always make loading fail. A persisted
`{}` (an empty JSON object) is iterated over zero keys and silently yields
the empty collection, and a record whose four values all have the wrong
type is accepted as-is, because the loader never inspects the values. -/
theorem claim9_invalid_state_counterexample :
    load_file (.saved (.obj [])) = .ok [] ∧
    load_file (.saved (.arr [.obj [("id", .str "x"), ("date", .num 0),
        ("matiere", .null), ("poids", .str "y")]])) =
      .ok [⟨.str "x", .num 0, .null, .str "y"⟩] := by
  exact ⟨rfl, rfl⟩

/-- Claim C9 as amended: loading returns the empty collection when no
persisted state exists and fails when the file cannot be parsed; on a
parsed JSON array it succeeds exactly when every element is an object
containing the four record keys, the values themselves never being
type-checked; and a parsed empty object is iterated as empty, silently
yielding the empty collection instead of failing. -/
theorem claim9_load_failure_amended :
    load_file .absent = .ok [] ∧
    load_file .corrupt = .error .jsonDecodeErr ∧
    (∀ l : List Json, (load_data (.arr l)).isOk = l.all hasRecordKeys) ∧
    load_file (.saved (.obj [])) = .ok [] := by
  refine ⟨rfl, rfl, ?_, rfl⟩
  intro l
  show (loadRecords l).isOk = l.all hasRecordKeys
  exact loadRecords_isOk l

/-- Witness for the amended C9: a parsed array holding one key-complete
record loads successfully. -/
theorem claim9_load_failure_amended_witness :
    (load_data (.arr [.obj [("id", .num 1), ("date", .str "01/01/2026"),
      ("matiere", .str "Acier"), ("poids", .num 55)]])).isOk = true :=
  (claim9_load_failure_amended.2.2.1
    [.obj [("id", .num 1), ("date", .str "01/01/2026"),
      ("matiere", .str "Acier"), ("poids", .num 55)]]).trans (by decide)

/-! ### Claims about `calculate_weight_summary` -/

/-- Lookup of a material in the insertion-ordered summary dict (the Python
`matiere_dict[m]` on string keys, `None` when `m not in matiere_dict`):
the mapping view of the dict the claims compare. -/
def lookupMat : List (String × Int) → String → Option Int
  | [], _ => none
  | (k, v) :: rest, m => if k = m then some v else lookupMat rest m

theorem bump_lookupMat (d : List (String × Int)) (m : String) (w : Int)
    (m' : String) :
    lookupMat (bump d m w) m' =
      if m' = m then some ((lookupMat d m).getD 0 + w) else lookupMat d m' := by
  induction d with
  | nil =>
    by_cases h : m' = m
    · subst h
      simp [bump, lookupMat]
    · have h' : ¬m = m' := fun hh => h hh.symm
      simp [bump, lookupMat, h, h']
  | cons kv rest ih =>
    obtain ⟨k, v⟩ := kv
    by_cases hkm : k = m
    · subst hkm
      by_cases h : m' = k
      · subst h
        simp [bump, lookupMat]
      · have h' : ¬k = m' := fun hh => h hh.symm
        simp [bump, lookupMat, h, h']
    · by_cases h : k = m'
      · subst h
        simp [bump, lookupMat, hkm]
      · simp [bump, lookupMat, hkm, h, ih]

theorem summary_foldl_lookupMat (es : List Entry) (d : List (String × Int))
    (m : String) :
    lookupMat (es.foldl (fun d e => bump d e.matiere e.poids) d) m =
      if (es.filter fun e => e.matiere == m) = [] then lookupMat d m
      else some ((lookupMat d m).getD 0 +
        ((es.filter fun e => e.matiere == m).map Entry.poids).sum) := by
  induction es generalizing d with
  | nil => simp
  | cons e es ih =>
    rw [List.foldl_cons, ih]
    by_cases he : e.matiere = m
    · subst he
      have hlook : lookupMat (bump d e.matiere e.poids) e.matiere =
          some ((lookupMat d e.matiere).getD 0 + e.poids) := by
        rw [bump_lookupMat, if_pos rfl]
      by_cases h1 : (es.filter fun e' => e'.matiere == e.matiere) = [] <;>
        simp [List.filter_cons, h1, hlook, add_assoc]
    · have hlook : lookupMat (bump d e.matiere e.poids) m = lookupMat d m := by
        rw [bump_lookupMat, if_neg (fun hh => he hh.symm)]
      have hbeq : (e.matiere == m) = false := by
        simpa using he
      simp [List.filter_cons, hbeq, hlook]

/-- Per-material characterization of the summary dict: a material maps to
the sum of the stored weights of its entries, and is absent exactly when it
has no entry. -/
theorem summary_lookup (es : List Entry) (m : String) :
    lookupMat (calculate_weight_summary es) m =
      if (es.filter fun e => e.matiere == m) = [] then none
      else some (((es.filter fun e => e.matiere == m).map Entry.poids).sum) := by
  unfold calculate_weight_summary
  rw [summary_foldl_lookupMat]
  simp [lookupMat]

/-- Claim C6: `calculate_weight_summary` — a single left-to-right pass over
the entries — maps every material that occurs in the collection to the sum
of the stored weights of exactly its entries, and a material with zero
entries is absent from the mapping rather than present with value zero. -/
theorem claim6_summary_per_material_totals (es : List Entry) (m : String) :
    lookupMat (calculate_weight_summary es) m =
      if (es.filter fun e => e.matiere == m) = [] then none
      else some (((es.filter fun e => e.matiere == m).map Entry.poids).sum) :=
  summary_lookup es m

/-- Claim C7: permuting the entry collection leaves the summary unchanged
as a material-to-total mapping — every material looks up to the same total
in both summaries. -/
theorem claim7_summary_permutation_invariant (es es' : List Entry)
    (h : es.Perm es') (m : String) :
    lookupMat (calculate_weight_summary es) m =
      lookupMat (calculate_weight_summary es') m := by
  rw [summary_lookup, summary_lookup]
  have hf : (es.filter fun e => e.matiere == m).Perm
      (es'.filter fun e => e.matiere == m) := h.filter _
  by_cases h1 : (es.filter fun e => e.matiere == m) = []
  · have h2 : (es'.filter fun e => e.matiere == m) = [] := by
      rw [h1] at hf
      exact hf.symm.eq_nil
    rw [if_pos h1, if_pos h2]
  · have h2 : ¬(es'.filter fun e => e.matiere == m) = [] := fun hh => by
      rw [hh] at hf
      exact h1 hf.eq_nil
    rw [if_neg h1, if_neg h2, (hf.map Entry.poids).sum_eq]

/-- Witness for C7: swapping two entries of different materials leaves the
total of `"Acier"` unchanged. -/
theorem claim7_summary_permutation_invariant_witness :
    lookupMat (calculate_weight_summary
      [⟨1, "01/01/2026", "Acier", 55⟩, ⟨2, "01/01/2026", "Cuivre", 7⟩]) "Acier" =
    lookupMat (calculate_weight_summary
      [⟨2, "01/01/2026", "Cuivre", 7⟩, ⟨1, "01/01/2026", "Acier", 55⟩]) "Acier" :=
  claim7_summary_permutation_invariant
    [⟨1, "01/01/2026", "Acier", 55⟩, ⟨2, "01/01/2026", "Cuivre", 7⟩]
    [⟨2, "01/01/2026", "Cuivre", 7⟩, ⟨1, "01/01/2026", "Acier", 55⟩]
    (List.Perm.swap (⟨2, "01/01/2026", "Cuivre", 7⟩ : Entry)
      (⟨1, "01/01/2026", "Acier", 55⟩ : Entry) [])
    "Acier"

end SteelManager
